import Mathlib

/-!
# Verification of the korail-seat-notifier polling control plane

Shallow embedding, in Lean 4, of the pure/deterministic core of the
korail-seat-notifier repository, together with theorems settling the
specification claims about it.

Embedded components (file ↦ Lean definitions):
* src/skills/seat_checker.py  ↦ seat_count_from_code, calc_duration,
  checkPages / SeatChecker.check (pagination loop of SeatCheckerSkill.check)
* src/skills/poller.py        ↦ PollerSkill.next_interval
* src/utils/rate_limiter.py   ↦ TokenBucketRateLimiter (refill / acquire loop)
* src/skills/station_data.py  ↦ STATION_CODES, STATION_ALIASES, validate_station
* src/skills/validation.py    ↦ validate_query
* src/agents/monitor_agent.py ↦ pollOnce / runLoop (event trace of the poll loop)
* src/agents/notifier_agent.py↦ handleNotification
* src/skills/notifier.py      ↦ NotifierSkill.send
* src/models/query.py         ↦ TrainInfo, CheckResult

Numeric conventions: Python floats (monotonic timestamps, intervals, token
counts) are embedded as rationals (ℚ); Python ints as Int/Nat.  Sources of
nondeterminism (random.uniform jitter, time.monotonic clock readings, network
responses, channel outcomes) are passed as explicit parameters.
-/

namespace Korail

/-! ## Python string helpers

Python's `sub in s` substring test and `str.isdigit` filtering, modelled
over the character lists of Lean strings.  (The reservation-name fields this
is applied to contain only Hangul and ASCII digits, for which Python's
`str.isdigit` agrees with `Char.isDigit`.) -/

/-- Does the list `hay` start with `needle`? -/
def startsWithL : List Char → List Char → Bool
  | [], _ => true
  | _ :: _, [] => false
  | a :: as, b :: bs => a == b && startsWithL as bs

/-- Python's `needle in hay` substring containment over char lists. -/
def containsSubL (needle : List Char) : List Char → Bool
  | [] => needle.isEmpty
  | c :: t => startsWithL needle (c :: t) || containsSubL needle t

/-- Python's `sub in s` on strings. -/
def pyIn (sub s : String) : Bool := containsSubL sub.toList s.toList

/-- Python digit extraction (all digit characters of the name, concatenated) as a char list. -/
def digitsOf (s : String) : List Char := s.toList.filter Char.isDigit

/-- Python `int` applied to a nonempty string of decimal digits. -/
def digitsToNat (l : List Char) : Nat :=
  l.foldl (fun n c => 10 * n + (c.toNat - 48)) 0

/-! ## src/skills/seat_checker.py : seat-count derivation and duration -/

/-- Embeds `_RSV_CODE_AVAILABLE = {"11", "13"}` -/
def RSV_CODE_AVAILABLE : List String := ["11", "13"]

/-- Embeds `_seat_count_from_code(code, name)` from src/skills/seat_checker.py:

    if code in _RSV_CODE_AVAILABLE:
        if "많음" in name or "충분" in name or "가능" in name:
            return 99
        digits = "".flatten(c for c in name if c.isdigit())
        return int(digits) if digits else 1
    return 0
-/
def seat_count_from_code (code name : String) : Nat :=
  if code ∈ RSV_CODE_AVAILABLE then
    if pyIn "많음" name || pyIn "충분" name || pyIn "가능" name then 99
    else
      let digits := digitsOf name
      if digits.isEmpty then 1 else digitsToNat digits
  else 0

/-- A Python `datetime.time` restricted to the fields the code reads
(hour, minute); `datetime.time` guarantees `hour < 24` and `minute < 60`. -/
structure PyTime where
  hour : Nat
  minute : Nat
deriving DecidableEq, Repr

/-- Embeds `_calc_duration(dep, arr)` from src/skills/seat_checker.py:

    dep_min = dep.hour * 60 + dep.minute
    arr_min = arr.hour * 60 + arr.minute
    diff = arr_min - dep_min
    if diff <= 0:
        diff += 1440
    return diff
-/
def calc_duration (dep arr : PyTime) : Int :=
  let depMin : Int := dep.hour * 60 + dep.minute
  let arrMin : Int := arr.hour * 60 + arr.minute
  let diff := arrMin - depMin
  if diff ≤ 0 then diff + 1440 else diff

/-! ## src/skills/poller.py : adaptive poll scheduler

`random.uniform(0, jitter_range)` is modelled by an explicit `jitter`
argument; `next_interval` returns the updated skill state together with the
value the Python method returns. -/

structure PollerSkill where
  base_interval : ℚ
  max_interval : ℚ
  backoff_multiplier : ℚ
  jitter_range : ℚ
  current_interval : ℚ
deriving DecidableEq, Repr

/-- Embeds `PollerSkill.__init__`: `current_interval` starts at `base_interval`. -/
def PollerSkill.mk' (base maxI mult jr : ℚ) : PollerSkill :=
  ⟨base, maxI, mult, jr, base⟩

/-- Embeds `PollerSkill.next_interval(had_error)` from src/skills/poller.py:

    if had_error:
        self._current_interval = min(self._current_interval * self._backoff_multiplier,
                                     self._max_interval)
    else:
        self._current_interval = max(self._current_interval / 1.2,
                                     self._base_interval)
    jitter = random.uniform(0, self._jitter_range)
    return self._current_interval + jitter
-/
def PollerSkill.next_interval (p : PollerSkill) (had_error : Bool) (jitter : ℚ) :
    PollerSkill × ℚ :=
  let cur :=
    if had_error then min (p.current_interval * p.backoff_multiplier) p.max_interval
    else max (p.current_interval / (6 / 5)) p.base_interval
  ({ p with current_interval := cur }, cur + jitter)

/-- State reached after `k` consecutive `next_interval(had_error=True)` calls. -/
def errIter (p : PollerSkill) : Nat → PollerSkill
  | 0 => p
  | k + 1 => ((errIter p k).next_interval true 0).1

/-! ## src/utils/rate_limiter.py : token-bucket rate limiter

`time.monotonic()` readings are passed as explicit rational timestamps; the
monotonicity of the clock becomes the hypothesis that successive readings are
non-decreasing.  One `tryAcquire` models one iteration of `acquire`'s loop
(the `_refill` call followed by the token test); the iteration that finds a
token is acquire's successful return. -/

structure BucketSt where
  tokens : ℚ
  last_refill : ℚ
deriving DecidableEq, Repr

/-- Embeds `TokenBucketRateLimiter._refill` at clock reading `now`:

    elapsed = now - self._last_refill
    self._tokens = min(self._burst, self._tokens + elapsed * self._rate)
    self._last_refill = now
-/
def refill (rate burst : ℚ) (s : BucketSt) (now : ℚ) : BucketSt :=
  ⟨min burst (s.tokens + (now - s.last_refill) * rate), now⟩

/-- One iteration of `TokenBucketRateLimiter.acquire` at clock reading `now`:
refill, then consume a token if at least one is available (the `True`
result); otherwise the loop sleeps and retries (the `False` result). -/
def tryAcquire (rate burst : ℚ) (s : BucketSt) (now : ℚ) : BucketSt × Bool :=
  let s2 := refill rate burst s now
  if 1 ≤ s2.tokens then (⟨s2.tokens - 1, s2.last_refill⟩, true) else (s2, false)

/-- Fold `tryAcquire` over a list of clock readings, counting how many
iterations dispatched (successfully consumed a token). -/
def runBucket (rate burst : ℚ) : BucketSt → List ℚ → BucketSt × Nat
  | s, [] => (s, 0)
  | s, t :: ts =>
    let step := tryAcquire rate burst s t
    let rest := runBucket rate burst step.1 ts
    (rest.1, (if step.2 then 1 else 0) + rest.2)

/-- The clock readings are non-decreasing and start no earlier than `t0`. -/
def TimesMono : ℚ → List ℚ → Prop
  | _, [] => True
  | t0, t :: ts => t0 ≤ t ∧ TimesMono t ts

lemma tryAcquire_last (rate burst : ℚ) (s : BucketSt) (now : ℚ) :
    (tryAcquire rate burst s now).1.last_refill = now := by
  unfold tryAcquire refill
  dsimp only
  split <;> rfl

lemma tryAcquire_tokens_nonneg (rate burst : ℚ) (hr : 0 ≤ rate) (hb : 0 ≤ burst)
    (s : BucketSt) (now : ℚ) (h0 : 0 ≤ s.tokens) (hn : s.last_refill ≤ now) :
    0 ≤ (tryAcquire rate burst s now).1.tokens := by
  unfold tryAcquire refill
  dsimp only
  have hx : 0 ≤ s.tokens + (now - s.last_refill) * rate :=
    add_nonneg h0 (mul_nonneg (by linarith) hr)
  split
  · rename_i h1
    simp only
    linarith [h1]
  · simp only
    exact le_min hb hx

lemma tryAcquire_tokens_le_burst (rate burst : ℚ)
    (s : BucketSt) (now : ℚ) :
    (tryAcquire rate burst s now).1.tokens ≤ burst := by
  unfold tryAcquire refill
  dsimp only
  split
  · simp only
    have := min_le_left burst (s.tokens + (now - s.last_refill) * rate)
    linarith
  · simp only
    exact min_le_left _ _

/-- Main induction for the window bound: along any monotone sequence of
clock readings, the number of dispatched tokens is bounded by the tokens
initially in the bucket plus `rate` times the elapsed span, the bucket never
goes negative, and the final refill timestamp is one of the readings. -/
lemma runBucket_main (rate burst : ℚ) (hr : 0 ≤ rate) (hb : 0 ≤ burst) :
    ∀ (ts : List ℚ) (s : BucketSt), 0 ≤ s.tokens → TimesMono s.last_refill ts →
      0 ≤ (runBucket rate burst s ts).1.tokens
      ∧ s.last_refill ≤ (runBucket rate burst s ts).1.last_refill
      ∧ ((runBucket rate burst s ts).1.last_refill = s.last_refill
          ∨ (runBucket rate burst s ts).1.last_refill ∈ ts)
      ∧ (((runBucket rate burst s ts).2 : ℚ)
          ≤ s.tokens - (runBucket rate burst s ts).1.tokens
            + rate * ((runBucket rate burst s ts).1.last_refill - s.last_refill))
  | [], s, h0, _ => by
    refine ⟨h0, le_rfl, Or.inl rfl, ?_⟩
    simp [runBucket]
  | t :: ts, s, h0, hm => by
    have hmt : s.last_refill ≤ t := hm.1
    have hs2last : (tryAcquire rate burst s t).1.last_refill = t :=
      tryAcquire_last rate burst s t
    have hs2tok : 0 ≤ (tryAcquire rate burst s t).1.tokens :=
      tryAcquire_tokens_nonneg rate burst hr hb s t h0 hmt
    have hmono2 : TimesMono (tryAcquire rate burst s t).1.last_refill ts := by
      rw [hs2last]; exact hm.2
    have ih := runBucket_main rate burst hr hb ts (tryAcquire rate burst s t).1
      hs2tok hmono2
    have hstep : ((if (tryAcquire rate burst s t).2 then 1 else 0 : Nat) : ℚ)
        ≤ s.tokens - (tryAcquire rate burst s t).1.tokens
          + rate * (t - s.last_refill) := by
      unfold tryAcquire refill
      have hmin : min burst (s.tokens + (t - s.last_refill) * rate)
          ≤ s.tokens + (t - s.last_refill) * rate := min_le_right _ _
      dsimp only
      split
      · rename_i h1
        simp only [if_true]
        push_cast
        linarith
      · rename_i h1
        simp only [if_false]
        push_cast
        linarith
    have hrw : runBucket rate burst s (t :: ts)
        = ((runBucket rate burst (tryAcquire rate burst s t).1 ts).1,
           (if (tryAcquire rate burst s t).2 then 1 else 0)
             + (runBucket rate burst (tryAcquire rate burst s t).1 ts).2) := by
      rfl
    rw [hrw]
    refine ⟨ih.1, ?_, ?_, ?_⟩
    · have h21 := ih.2.1
      rw [hs2last] at h21
      exact le_trans hmt h21
    · rcases ih.2.2.1 with h | h
      · exact Or.inr (by rw [h, hs2last]; exact List.mem_cons_self _ _)
      · exact Or.inr (List.mem_cons_of_mem _ h)
    · have hkey : rate * (t - s.last_refill)
          + rate * ((runBucket rate burst (tryAcquire rate burst s t).1 ts).1.last_refill - t)
          = rate * ((runBucket rate burst (tryAcquire rate burst s t).1 ts).1.last_refill
              - s.last_refill) := by ring
      have ih4 := ih.2.2.2
      rw [hs2last] at ih4
      push_cast
      push_cast at hstep ih4
      linarith

lemma next_interval_fields (p : PollerSkill) (e : Bool) (j : ℚ) :
    ((p.next_interval e j).1).base_interval = p.base_interval ∧
    ((p.next_interval e j).1).max_interval = p.max_interval ∧
    ((p.next_interval e j).1).backoff_multiplier = p.backoff_multiplier ∧
    ((p.next_interval e j).1).jitter_range = p.jitter_range := by
  simp [PollerSkill.next_interval]

lemma errIter_fields (p : PollerSkill) (k : Nat) :
    (errIter p k).base_interval = p.base_interval ∧
    (errIter p k).max_interval = p.max_interval ∧
    (errIter p k).backoff_multiplier = p.backoff_multiplier ∧
    (errIter p k).jitter_range = p.jitter_range := by
  induction k with
  | zero => exact ⟨rfl, rfl, rfl, rfl⟩
  | succ k ih =>
    refine ⟨?_, ?_, ?_, ?_⟩ <;>
      simp [errIter, PollerSkill.next_interval, ih.1, ih.2.1, ih.2.2.1, ih.2.2.2]

/-! ## src/models/query.py : TrainInfo and CheckResult -/

structure TrainInfo where
  train_no : String
  train_type : String
  departure_time : PyTime
  arrival_time : PyTime
  general_seats : Int
  special_seats : Int
  duration_minutes : Int
deriving DecidableEq, Repr

/-- Embeds `TrainInfo.has_seats`: `general_seats > 0 or special_seats > 0`. -/
def TrainInfo.has_seats (t : TrainInfo) : Bool :=
  decide (0 < t.general_seats) || decide (0 < t.special_seats)

structure CheckResult where
  query_timestamp : ℚ
  trains : List TrainInfo
  seats_available : Bool
  raw_response_size : Nat
deriving DecidableEq, Repr

/-- Embeds `CheckResult.available_trains`: the trains with seats, in order. -/
def CheckResult.available_trains (r : CheckResult) : List TrainInfo :=
  r.trains.filter (fun t => t.has_seats)

/-! ## src/agents/monitor_agent.py : the poll loop as an event trace

`MonitorAgent._poll_once` and `MonitorAgent.run`, restricted to what they
emit on the event bus.  A `PollOutcome` is the outcome of one
`SeatCheckerSkill.check` call (`success` with the `seats_available` flag of
the returned `CheckResult`, or a raised exception).  The trace covers runs
in which the stop flag is never set and `max_session_duration` is not
exceeded; the request-count session limit is modelled, the wall-clock one
is not (it is the same `break`). -/

inductive CriticalReason
  | sessionLimit
  | consecutiveErrors
deriving DecidableEq, Repr

inductive MonitorEvent
  | pollStart
  | pollResult
  | seatDetected
  | healthCritical (reason : CriticalReason)
deriving DecidableEq, Repr

inductive PollOutcome
  | success (seatsAvailable : Bool)
  | failure
deriving DecidableEq, Repr

structure MonitorConfig where
  max_consecutive_errors : Nat
  max_requests_per_session : Nat
deriving DecidableEq, Repr

structure MonitorSt where
  consecutive_errors : Nat
  request_count : Nat
deriving DecidableEq, Repr

/-- Embeds `MonitorAgent._poll_once`: emits `POLL_START`, then on success resets
the consecutive-error counter, bumps the request counter, emits
`POLL_RESULT` and, when seats are available, `SEAT_DETECTED`; on failure
bumps both counters and emits `HEALTH_CRITICAL {consecutive_errors,
last_error}` when the counter has reached `max_consecutive_errors`.
It returns to the loop in both cases (no exit). -/
def pollOnce (cfg : MonitorConfig) (s : MonitorSt) :
    PollOutcome → MonitorSt × List MonitorEvent
  | .success seats =>
    (⟨0, s.request_count + 1⟩,
      [.pollStart, .pollResult] ++ (if seats then [.seatDetected] else []))
  | .failure =>
    (⟨s.consecutive_errors + 1, s.request_count + 1⟩,
      [.pollStart] ++
        (if cfg.max_consecutive_errors ≤ s.consecutive_errors + 1
          then [.healthCritical .consecutiveErrors] else []))

/-- Embeds `MonitorAgent.run`'s polling loop over a list of poll outcomes: each
iteration first checks the session limit (`_check_limits`), emitting
`HEALTH_CRITICAL {session_limit_reached}` and breaking when it is hit, then
runs `_poll_once` and continues with the next outcome. -/
def runLoop (cfg : MonitorConfig) : MonitorSt → List PollOutcome → List MonitorEvent
  | _, [] => []
  | s, o :: rest =>
    if cfg.max_requests_per_session ≤ s.request_count then
      [.healthCritical .sessionLimit]
    else
      (pollOnce cfg s o).2 ++ runLoop cfg (pollOnce cfg s o).1 rest

/-! ## src/skills/notifier.py and src/agents/notifier_agent.py -/

/-- Embeds `asyncio.gather(*tasks, return_exceptions=True)`: the per-task results
and exceptions are collected into a list and returned; nothing is raised. -/
def gather_return_exceptions (results : List (Except String Unit)) :
    List (Except String Unit) :=
  results

/-- Embeds `NotifierSkill.send(result)` from src/skills/notifier.py: returns
immediately when no train has seats; otherwise spawns one task per enabled
channel name in `{desktop, sound, webhook}` and awaits them with
`asyncio.gather(..., return_exceptions=True)`, whose collected list it
discards.  `channelResult` gives the outcome of each channel task; the
method returns without raising regardless of those outcomes. -/
def NotifierSkill.send (methods : List String) (r : CheckResult)
    (channelResult : String → Except String Unit) : Except String Unit :=
  if r.available_trains.isEmpty then .ok ()
  else
    let tasks := methods.filter
      (fun m => m == "desktop" || m == "sound" || m == "webhook")
    let _ := gather_return_exceptions (tasks.map channelResult)
    .ok ()

structure NotifierSt where
  last_notification_time : ℚ
  notifications_sent : Nat
deriving DecidableEq, Repr

inductive NotifierEvent
  | notifyComplete (trains_count notification_number : Nat)
deriving DecidableEq, Repr

/-- Result of one `NotifierAgent._handle_notification` call: the updated
agent state, whether `self._notifier.send` was awaited, and the events put
on the bus. -/
structure HandleOutcome where
  state : NotifierSt
  send_attempted : Bool
  events : List NotifierEvent
deriving DecidableEq, Repr

/-- Embeds `NotifierAgent._handle_notification(result)` at clock reading `now`,
where `sendResult` is the outcome of `await self._notifier.send(result)`
(an `.error` models an exception caught by the `except` clause):

    now = monotonic()
    time_since_last = now - self._last_notification_time
    if self._last_notification_time > 0 and time_since_last < cooldown:
        return                          # cooldown: drop silently
    available = result.available_trains
    if not available:
        return
    try:
        await self._notifier.send(result)
        self._last_notification_time = now
        self._notifications_sent += 1
        await self.emit(NOTIFY_COMPLETE, ...)
    except Exception:
        pass                            # logged only
-/
def handleNotification (cooldown : ℚ) (s : NotifierSt) (now : ℚ)
    (result : CheckResult) (sendResult : Except String Unit) : HandleOutcome :=
  if 0 < s.last_notification_time ∧ now - s.last_notification_time < cooldown then
    ⟨s, false, []⟩
  else
    if result.available_trains.isEmpty then ⟨s, false, []⟩
    else
      match sendResult with
      | .ok _ =>
        ⟨⟨now, s.notifications_sent + 1⟩, true,
          [.notifyComplete result.available_trains.length
            (s.notifications_sent + 1)]⟩
      | .error _ => ⟨s, true, []⟩

/-- A sample train with general seats, parsed from the seeded mock response
of the test suite. -/
def demoTrain : TrainInfo := ⟨"101", "KTX", ⟨9, 0⟩, ⟨11, 30⟩, 5, 0, 150⟩

/-- A sample detection (a `CheckResult` with seats available). -/
def demoResult : CheckResult := ⟨100, [demoTrain], true, 2048⟩

/-! ## src/skills/station_data.py : station table, aliases, validation -/

/-- Embeds `STATION_CODES`: station name → carrier-assigned 4-digit code. -/
def STATION_CODES : List (String × String) := [
  ("서울", "0001"), ("용산", "0015"), ("영등포", "0020"), ("광명", "0502"),
  ("수원", "0055"), ("천안아산", "0297"), ("오송", "0298"), ("대전", "0010"),
  ("김천구미", "0507"), ("동대구", "0508"), ("경주", "0519"), ("포항", "0515"),
  ("울산(통도사)", "0930"), ("부산", "0032"), ("광주송정", "0036"),
  ("목포", "0041"), ("전주", "0045"), ("익산", "0030"), ("여수엑스포", "0049"),
  ("강릉", "0115"), ("평창", "0112"), ("진주", "0056")]

/-- Embeds `STATION_ALIASES`: alias → canonical station name. -/
def STATION_ALIASES : List (String × String) := [
  ("서울역", "서울"), ("용산역", "용산"), ("부산역", "부산"), ("대전역", "대전"),
  ("동대구역", "동대구"), ("울산", "울산(통도사)"), ("울산역", "울산(통도사)"),
  ("통도사", "울산(통도사)"), ("광주", "광주송정"), ("여수", "여수엑스포"),
  ("김천", "김천구미"), ("구미", "김천구미"), ("천안", "천안아산"),
  ("아산", "천안아산")]

/-- Python dict lookup over the embedded association lists. -/
def lookupTable (table : List (String × String)) (k : String) : Option String :=
  (table.find? (fun p => p.1 == k)).map (fun p => p.2)

/-- Embeds `name.strip()`: drop surrounding whitespace. -/
def pyStrip (l : List Char) : List Char :=
  ((l.dropWhile Char.isWhitespace).reverse.dropWhile Char.isWhitespace).reverse

/-- Embeds `.replace(" ", "")`: remove every space. -/
def removeSpaces (l : List Char) : List Char := l.filter (fun c => c ≠ ' ')

/-- The normalisation performed by `validate_station`:
`name.strip().replace(" ", "")` followed by the alias lookup. -/
def normalizeName (name : String) : String :=
  let n := String.mk (removeSpaces (pyStrip name.toList))
  match lookupTable STATION_ALIASES n with
  | some canon => canon
  | none => n

/-- Embeds `validate_station(name)` from src/skills/station_data.py: normalise,
then require membership in `STATION_CODES` (`ValueError` otherwise). -/
def validate_station (name : String) : Except String String :=
  let n := normalizeName name
  if (lookupTable STATION_CODES n).isSome then .ok n
  else .error "지원하지 않는 역입니다"

/-! ## src/skills/validation.py : query validation

Calendar dates are embedded as day ordinals (ℤ); `date.today()` is the
explicit `today` parameter.  Wall-clock times compare exactly as Python
`datetime.time` values (lexicographically on (hour, minute)). -/

/-- Python `a < b` on `datetime.time` restricted to (hour, minute). -/
def PyTime.lt (a b : PyTime) : Prop :=
  a.hour < b.hour ∨ (a.hour = b.hour ∧ a.minute < b.minute)

/-- Python `a <= b` on `datetime.time` restricted to (hour, minute). -/
def PyTime.le (a b : PyTime) : Prop :=
  PyTime.lt a b ∨ (a.hour = b.hour ∧ a.minute = b.minute)

instance (a b : PyTime) : Decidable (PyTime.lt a b) := by
  unfold PyTime.lt; infer_instance

instance (a b : PyTime) : Decidable (PyTime.le a b) := by
  unfold PyTime.le PyTime.lt; infer_instance

/-- Embeds `TrainQuery` from src/models/query.py (the validated fields). -/
structure TrainQuery where
  departure_station : String
  arrival_station : String
  departure_date : Int
  preferred_time_start : PyTime
  preferred_time_end : PyTime
  train_type : String
  seat_type : String
  passenger_count : Int
deriving DecidableEq, Repr

/-- The input dictionary handed to `ValidationSkill.validate_query`:
`none` models an absent key.  (`datetime.date`/`datetime.time` objects are
always truthy in Python, so for them only `None` fails the `if not x`
checks; for station strings the empty string is falsy too.) -/
structure QueryInput where
  departure : Option String
  arrival : Option String
  date : Option Int
  time_start : Option PyTime
  time_end : Option PyTime
  train_type : Option String
  seat_type : Option String
  passengers : Option Int
deriving DecidableEq, Repr

/-- Python truthiness of `data.get("departure")` for a string field. -/
def pyTruthyStr : Option String → Bool
  | none => false
  | some s => !s.isEmpty

/-- Embeds `ValidationSkill.MAX_FUTURE_DAYS = 90` -/
def MAX_FUTURE_DAYS : Int := 90

/-- Embeds `ValidationSkill.validate_query(data)` from src/skills/validation.py:
required-field checks, station validation and normalisation, same-station
check, past / too-far date checks (`validate_date`), time-range check
(`validate_time_range`), passenger-range check (`validate_passengers`),
then construction of the `TrainQuery`. -/
def validate_query (today : Int) (input : QueryInput) : Except String TrainQuery :=
  if ¬ pyTruthyStr input.departure then .error "출발역이 입력되지 않았습니다"
  else if ¬ pyTruthyStr input.arrival then .error "도착역이 입력되지 않았습니다"
  else if input.date.isNone then .error "출발 날짜가 입력되지 않았습니다"
  else if input.time_start.isNone then .error "시작 시간이 입력되지 않았습니다"
  else if input.time_end.isNone then .error "종료 시간이 입력되지 않았습니다"
  else
    match validate_station (input.departure.getD "") with
    | .error e => .error e
    | .ok dep =>
      match validate_station (input.arrival.getD "") with
      | .error e => .error e
      | .ok arr =>
        if dep = arr then .error "출발역과 도착역이 같습니다"
        else
          let d := input.date.getD 0
          if d < today then .error "과거 날짜는 선택할 수 없습니다"
          else if today + MAX_FUTURE_DAYS < d then
            .error "90일 이내의 날짜만 선택할 수 있습니다"
          else
            let ts := input.time_start.getD ⟨0, 0⟩
            let te := input.time_end.getD ⟨0, 0⟩
            if PyTime.le te ts then .error "종료 시간이 시작 시간보다 커야 합니다"
            else
              let p := input.passengers.getD 1
              if p < 1 ∨ 9 < p then .error "승객 수는 1~9명이어야 합니다"
              else .ok ⟨dep, arr, d, ts, te, input.train_type.getD "KTX",
                input.seat_type.getD "일반실", p⟩

/-- The rejection condition exactly as claim C8 words it (a refinement
definition written from the claim, to be compared with `validate_query`):
same station after normalisation, past date, date more than 90 days ahead,
window end ≤ window start, or passenger count outside 1..9. -/
def claimedRejectC8 (today : Int) (input : QueryInput) : Prop :=
  (∃ c, input.departure.map normalizeName = some c
      ∧ input.arrival.map normalizeName = some c)
  ∨ (∃ d, input.date = some d ∧ d < today)
  ∨ (∃ d, input.date = some d ∧ today + 90 < d)
  ∨ (∃ a b, input.time_start = some a ∧ input.time_end = some b ∧ PyTime.le b a)
  ∨ (∃ p, input.passengers = some p ∧ (p < 1 ∨ 9 < p))

/-- An input whose departure station is not in the supported table but
which violates none of the five conditions of claim C8. -/
def badStationInput : QueryInput :=
  ⟨some "없는역", some "부산", some 20300, some ⟨8, 0⟩, some ⟨12, 0⟩,
    none, none, some 1⟩

/-- A well-formed input using the alias "서울역". -/
def demoQueryInput : QueryInput :=
  ⟨some "서울역", some "부산", some 20305, some ⟨8, 0⟩, some ⟨12, 0⟩,
    none, none, some 2⟩

/-! ## src/skills/seat_checker.py : `SeatCheckerSkill.check` pagination

`srv i` is the decoded JSON of the response to the `i`-th GET of one poll
(the continuation tokens `h_qry_st_no_next` / `h_trn_no_next` only select
which page the server returns next); `trains` is the `_parse_response`
output for that page and `size` is `len(raw_bytes)`. -/

structure ApiPage where
  strResult : String
  msg_cd : String
  msg_txt : String
  next_pg_flg : String
  trains : List TrainInfo
  size : Nat
deriving DecidableEq, Repr

/-- Embeds `MAX_PAGES = 5` -/
def MAX_PAGES : Nat := 5

/-- The pagination loop of `SeatCheckerSkill.check`: read a page, raise on
`strResult == "FAIL"`, accumulate its trains and byte size, stop unless
`h_next_pg_flg == "Y"`, and never read more than `fuel` pages. -/
def checkPages (srv : Nat → ApiPage) : Nat → Nat → Except String (List TrainInfo × Nat)
  | _, 0 => .ok ([], 0)
  | i, fuel + 1 =>
    if (srv i).strResult = "FAIL" then
      .error ((srv i).msg_cd ++ ": " ++ (srv i).msg_txt)
    else if (srv i).next_pg_flg ≠ "Y" then .ok ((srv i).trains, (srv i).size)
    else
      match checkPages srv (i + 1) fuel with
      | .error e => .error e
      | .ok (rest, sz) => .ok ((srv i).trains ++ rest, (srv i).size + sz)

/-- The number of page requests the loop issues. -/
def pagesTaken (srv : Nat → ApiPage) : Nat → Nat → Nat
  | _, 0 => 0
  | i, fuel + 1 =>
    if (srv i).strResult = "FAIL" then 1
    else if (srv i).next_pg_flg ≠ "Y" then 1
    else 1 + pagesTaken srv (i + 1) fuel

/-- Embeds `SeatCheckerSkill.check(query)`: run the pagination loop from page 0
with `MAX_PAGES` fuel, then assemble the `CheckResult`
(`seats_available = any(t.has_seats for t in all_trains)`,
`raw_response_size = total bytes`). -/
def SeatCheckerSkill.check (srv : Nat → ApiPage) (ts : ℚ) :
    Except String CheckResult :=
  match checkPages srv 0 MAX_PAGES with
  | .error e => .error e
  | .ok (trains, size) =>
    .ok ⟨ts, trains, trains.any (fun t => t.has_seats), size⟩

/-- A two-page server: page 0 carries the continuation flag, page 1 does
not (the seeded S5 scenario). -/
def demoSrv : Nat → ApiPage := fun i =>
  if i = 0 then ⟨"SUCC", "", "", "Y", [demoTrain], 1000⟩
  else ⟨"SUCC", "", "", "N", [], 500⟩

end Korail

namespace Korail

/-! ## Theorems for C1, C5 and C6 -/

/-- C1 (code bug): `_seat_count_from_code` has no branch for the sold-out
name texts when the code is "11"/"13", so it returns 1 — not 0 — on
("11","매진"), ("11","대기접수"), ("13","마감") and ("11","좌석없음"), in direct
contradiction with the repository's own test suite
(tests/test_seat_checker.py, TestSeatCountFromCode: the tests assert 0 for
exactly these four inputs and call the 1-result a bug).  The remaining
enumerated values of the claim do hold on the code. -/
theorem seat_count_from_code_c1_bug :
    seat_count_from_code "11" "매진" = 1 ∧
    seat_count_from_code "11" "대기접수" = 1 ∧
    seat_count_from_code "13" "마감" = 1 ∧
    seat_count_from_code "11" "좌석없음" = 1 ∧
    seat_count_from_code "11" "좌석많음" = 99 ∧
    seat_count_from_code "11" "5석" = 5 ∧
    seat_count_from_code "11" "" = 1 ∧
    seat_count_from_code "00" "매진" = 0 ∧
    seat_count_from_code "13" "가능" = 99 := by decide

/-- C5: `_calc_duration` returns arrival minus departure in minutes, adding
1440 exactly when `arrival ≤ departure` numerically; for the hour/minute
ranges `datetime.time` guarantees, the result is always ≥ 1; and the three
enumerated examples evaluate as the claim states. -/
theorem calc_duration_c5 (dep arr : PyTime)
    (h1 : dep.hour < 24) (h2 : dep.minute < 60)
    (h3 : arr.hour < 24) (h4 : arr.minute < 60) :
    calc_duration dep arr =
      (if (arr.hour * 60 + arr.minute : Int) ≤ (dep.hour * 60 + dep.minute : Int)
        then (arr.hour * 60 + arr.minute : Int) - (dep.hour * 60 + dep.minute) + 1440
        else (arr.hour * 60 + arr.minute : Int) - (dep.hour * 60 + dep.minute))
    ∧ 1 ≤ calc_duration dep arr
    ∧ calc_duration ⟨23, 0⟩ ⟨1, 0⟩ = 120
    ∧ calc_duration ⟨8, 0⟩ ⟨10, 30⟩ = 150
    ∧ calc_duration ⟨8, 0⟩ ⟨8, 0⟩ = 1440 := by
  refine ⟨?_, ?_, by decide, by decide, by decide⟩
  · unfold calc_duration
    dsimp only
    split_ifs <;> omega
  · unfold calc_duration
    dsimp only
    split_ifs <;> omega

/-- Witness for C5: the theorem applied at dep = 08:00, arr = 10:30. -/
theorem calc_duration_c5_witness :
    (8 : Nat) < 24 ∧ (0 : Nat) < 60 ∧ (10 : Nat) < 24 ∧ (30 : Nat) < 60 ∧
      1 ≤ calc_duration ⟨8, 0⟩ ⟨10, 30⟩ :=
  ⟨by decide, by decide, by decide, by decide,
    (calc_duration_c5 ⟨8, 0⟩ ⟨10, 30⟩ (by decide) (by decide) (by decide)
      (by decide)).2.1⟩

/-- C6: for `PollerSkill` starting at `current_interval = base_interval`
(with the configured `base ≤ max` and `multiplier ≥ 1`):
(1) after any `k` consecutive `next_interval(had_error=True)` calls,
`current_interval ≤ min (base * multiplier ^ k) max`;
(2) every call keeps `current_interval ≥ base` (so the recovery path never
goes below `base_interval`);
(3) a `next_interval(had_error=False)` call is non-increasing and contracts
the distance to `base_interval` by the factor 5/6 (Python's `/ 1.2`);
(4) every call returns the updated `current_interval` plus the jitter, which
for a jitter drawn from `[0, jitter_range]` bounds the returned value by
`current_interval + jitter_range` from above and `current_interval` from
below. -/
theorem poller_c6 (base M mult jr : ℚ)
    (hb : 0 ≤ base) (hbM : base ≤ M) (hm : 1 ≤ mult) :
    (∀ k : Nat, (errIter (PollerSkill.mk' base M mult jr) k).current_interval
        ≤ min (base * mult ^ k) M)
    ∧ (∀ p : PollerSkill, p.base_interval = base → p.max_interval = M →
        p.backoff_multiplier = mult → base ≤ p.current_interval →
        ∀ (e : Bool) (j : ℚ), base ≤ ((p.next_interval e j).1).current_interval)
    ∧ (∀ p : PollerSkill, p.base_interval = base → base ≤ p.current_interval →
        ∀ j : ℚ,
          base ≤ ((p.next_interval false j).1).current_interval
          ∧ ((p.next_interval false j).1).current_interval ≤ p.current_interval
          ∧ ((p.next_interval false j).1).current_interval - base
              ≤ (p.current_interval - base) * (5 / 6))
    ∧ (∀ (p : PollerSkill) (e : Bool) (j : ℚ), 0 ≤ j → j ≤ p.jitter_range →
        (p.next_interval e j).2 = ((p.next_interval e j).1).current_interval + j
        ∧ ((p.next_interval e j).1).current_interval ≤ (p.next_interval e j).2
        ∧ (p.next_interval e j).2
            ≤ ((p.next_interval e j).1).current_interval + p.jitter_range) := by
  refine ⟨?_, ?_, ?_, ?_⟩
  · intro k
    induction k with
    | zero =>
      simp only [errIter, PollerSkill.mk', pow_zero, mul_one]
      exact le_min le_rfl hbM
    | succ k ih =>
      have hf := errIter_fields (PollerSkill.mk' base M mult jr) k
      have hfM := hf.2.1
      have hfm := hf.2.2.1
      simp only [PollerSkill.mk'] at hfM hfm
      have hcur : (errIter (PollerSkill.mk' base M mult jr) (k + 1)).current_interval
          = min ((errIter (PollerSkill.mk' base M mult jr) k).current_interval * mult)
              M := by
        simp [errIter, PollerSkill.next_interval, hfM, hfm, PollerSkill.mk']
      rw [hcur]
      have hc0 : (errIter (PollerSkill.mk' base M mult jr) k).current_interval * mult
          ≤ base * mult ^ k * mult :=
        mul_le_mul_of_nonneg_right (le_trans ih (min_le_left _ _))
          (le_trans zero_le_one hm)
      refine le_trans (min_le_min hc0 le_rfl) (le_of_eq ?_)
      rw [pow_succ, mul_assoc]
  · intro p h1 h2 h3 h4 e j
    cases e with
    | false =>
      simp only [PollerSkill.next_interval, Bool.false_eq_true, if_false]
      rw [h1]
      exact le_max_right _ _
    | true =>
      simp only [PollerSkill.next_interval, if_true]
      rw [h2, h3]
      have hc0 : 0 ≤ p.current_interval := le_trans hb h4
      have : base ≤ p.current_interval * mult := by nlinarith
      exact le_min this hbM
  · intro p h1 h4 j
    simp only [PollerSkill.next_interval, Bool.false_eq_true, if_false]
    rw [h1]
    have hdiv : p.current_interval / (6 / 5) = p.current_interval * (5 / 6) := by
      ring
    rw [hdiv]
    have hc0 : 0 ≤ p.current_interval := le_trans hb h4
    refine ⟨le_max_right _ _, max_le (by linarith) h4, ?_⟩
    rw [sub_le_iff_le_add]
    exact max_le (by linarith) (by linarith)
  · intro p e j hj0 hjr
    refine ⟨rfl, ?_, ?_⟩
    · simp only [PollerSkill.next_interval]
      exact le_add_of_nonneg_right hj0
    · simp only [PollerSkill.next_interval]
      exact add_le_add_left hjr _

/-- C7: for the token bucket (`rate ≥ 0`, `burst ≥ 0`):
(1) `_refill` sets the tokens to `min(burst, tokens + elapsed * rate)`;
(2) an `acquire` loop iteration dispatches only when the refilled bucket
holds at least 1 token, and then deducts exactly 1; otherwise it leaves the
refilled state untouched;
(3) `0 ≤ tokens ≤ burst` holds after every operation (for a monotone clock
and a bucket that starts non-negative);
(4) along any monotone run of acquire iterations whose clock readings stay
within a window `[last_refill, last_refill + T]` and that starts with at
most `burst` tokens, at most `burst + rate * T` tokens are dispatched. -/
theorem rate_limiter_c7 (rate burst : ℚ) (hr : 0 ≤ rate) (hb : 0 ≤ burst) :
    (∀ (s : BucketSt) (now : ℚ),
      (refill rate burst s now).tokens
        = min burst (s.tokens + (now - s.last_refill) * rate)
      ∧ (refill rate burst s now).last_refill = now)
    ∧ (∀ (s : BucketSt) (now : ℚ),
      ((tryAcquire rate burst s now).2 = true →
        1 ≤ (refill rate burst s now).tokens
        ∧ (tryAcquire rate burst s now).1.tokens
            = (refill rate burst s now).tokens - 1)
      ∧ ((tryAcquire rate burst s now).2 = false →
        (tryAcquire rate burst s now).1 = refill rate burst s now
        ∧ (refill rate burst s now).tokens < 1))
    ∧ (∀ (s : BucketSt) (now : ℚ), s.last_refill ≤ now → 0 ≤ s.tokens →
      0 ≤ (tryAcquire rate burst s now).1.tokens
      ∧ (tryAcquire rate burst s now).1.tokens ≤ burst)
    ∧ (∀ (s : BucketSt) (ts : List ℚ) (T : ℚ), 0 ≤ s.tokens → s.tokens ≤ burst →
      TimesMono s.last_refill ts → 0 ≤ T → (∀ t ∈ ts, t ≤ s.last_refill + T) →
      ((runBucket rate burst s ts).2 : ℚ) ≤ burst + rate * T) := by
  refine ⟨fun s now => ⟨rfl, rfl⟩, ?_, ?_, ?_⟩
  · intro s now
    constructor
    · intro hd
      unfold tryAcquire at hd ⊢
      dsimp only at hd ⊢
      split at hd
      · rename_i h1
        split
        · exact ⟨h1, rfl⟩
        · rename_i h2
          exact absurd h1 h2
      · simp at hd
    · intro hd
      unfold tryAcquire at hd ⊢
      dsimp only at hd ⊢
      split at hd
      · simp at hd
      · rename_i h1
        split
        · rename_i h2
          exact absurd h2 h1
        · exact ⟨rfl, by linarith [lt_of_not_le h1]⟩
  · intro s now hmono h0
    exact ⟨tryAcquire_tokens_nonneg rate burst hr hb s now h0 hmono,
      tryAcquire_tokens_le_burst rate burst s now⟩
  · intro s ts T h0 hburst hmono hT hwin
    have hmain := runBucket_main rate burst hr hb ts s h0 hmono
    have h4 := hmain.2.2.2
    have hft : 0 ≤ (runBucket rate burst s ts).1.tokens := hmain.1
    rcases hmain.2.2.1 with hlast | hlast
    · rw [hlast] at h4
      have : rate * (s.last_refill - s.last_refill) = 0 := by ring
      rw [this] at h4
      nlinarith
    · have hle : (runBucket rate burst s ts).1.last_refill ≤ s.last_refill + T :=
        hwin _ hlast
      have hmul : rate * ((runBucket rate burst s ts).1.last_refill - s.last_refill)
          ≤ rate * T := by
        apply mul_le_mul_of_nonneg_left _ hr
        linarith
      linarith

/-- Witness for C7 at the default configuration (rate 1/30, burst 1): a run
with clock readings 0 and 10 inside a window of length 10 starting from a
full bucket. -/
theorem rate_limiter_c7_witness :
    (0 : ℚ) ≤ 1 / 30 ∧ (0 : ℚ) ≤ 1
    ∧ (0 : ℚ) ≤ (⟨1, 0⟩ : BucketSt).tokens
    ∧ (⟨1, 0⟩ : BucketSt).tokens ≤ 1
    ∧ TimesMono (⟨1, 0⟩ : BucketSt).last_refill [0, 10]
    ∧ (0 : ℚ) ≤ 10
    ∧ (∀ t ∈ [(0 : ℚ), 10], t ≤ (⟨1, 0⟩ : BucketSt).last_refill + 10)
    ∧ ((runBucket (1 / 30) 1 ⟨1, 0⟩ [0, 10]).2 : ℚ) ≤ 1 + (1 / 30) * 10 := by
  have h1 : (0 : ℚ) ≤ 1 / 30 := by norm_num
  have h2 : (0 : ℚ) ≤ 1 := by norm_num
  have h3 : (0 : ℚ) ≤ (⟨1, 0⟩ : BucketSt).tokens := by norm_num
  have h4 : (⟨1, 0⟩ : BucketSt).tokens ≤ 1 := by norm_num
  have h5 : TimesMono (⟨1, 0⟩ : BucketSt).last_refill [0, 10] := by
    refine ⟨by norm_num, by norm_num, trivial⟩
  have h6 : (0 : ℚ) ≤ 10 := by norm_num
  have h7 : ∀ t ∈ [(0 : ℚ), 10], t ≤ (⟨1, 0⟩ : BucketSt).last_refill + 10 := by
    intro t ht
    rcases List.mem_cons.1 ht with h | h
    · rw [h]; norm_num
    · rcases List.mem_cons.1 h with h | h
      · rw [h]; norm_num
      · cases h
  exact ⟨h1, h2, h3, h4, h5, h6, h7,
    (rate_limiter_c7 (1 / 30) 1 h1 h2).2.2.2 ⟨1, 0⟩ [0, 10] 10 h3 h4 h5 h6 h7⟩

/-- Witness for C6 at the default configuration (base 30, max 300,
multiplier 3/2, jitter 5), taking two consecutive error steps. -/
theorem poller_c6_witness :
    (0 : ℚ) ≤ 30 ∧ (30 : ℚ) ≤ 300 ∧ (1 : ℚ) ≤ 3 / 2 ∧
      (errIter (PollerSkill.mk' 30 300 (3 / 2) 5) 2).current_interval
        ≤ min ((30 : ℚ) * (3 / 2) ^ 2) 300 :=
  ⟨by norm_num, by norm_num, by norm_num,
    (poller_c6 30 300 (3 / 2) 5 (by norm_num) (by norm_num) (by norm_num)).1 2⟩

/-! ## Theorems for C2 (monitor agent HEALTH_CRITICAL behaviour) -/

/-- Counterexample to C2: with `max_consecutive_errors = 1` and a failed
poll followed by a successful one, the loop emits `HEALTH_CRITICAL`
(consecutive errors) and then a further `POLL_RESULT` in the same session —
`_poll_once` does not exit the loop after the consecutive-errors
`HEALTH_CRITICAL` (only the session-limit branch of `run` breaks). -/
theorem monitor_c2_counterexample :
    runLoop ⟨1, 10⟩ ⟨0, 0⟩ [.failure, .success false]
      = [.pollStart, .healthCritical .consecutiveErrors, .pollStart, .pollResult]
    ∧ (runLoop ⟨1, 10⟩ ⟨0, 0⟩ [.failure, .success false])[1]?
        = some (.healthCritical .consecutiveErrors)
    ∧ (runLoop ⟨1, 10⟩ ⟨0, 0⟩ [.failure, .success false])[3]?
        = some .pollResult := by
  decide

/-- C2 as amended: when a failed poll makes the consecutive-error counter
reach `max_consecutive_errors`, the MonitorAgent emits `HEALTH_CRITICAL`
but does NOT exit its poll loop: the loop continues with the remaining
outcomes, and a subsequent successful poll (inside the session limits)
emits a further `POLL_RESULT`.  (Session shutdown after `HEALTH_CRITICAL`
is the Orchestrator's job, via the stop flag.) -/
theorem monitor_c2_amended (cfg : MonitorConfig) (s : MonitorSt)
    (rest : List PollOutcome)
    (hreq : s.request_count < cfg.max_requests_per_session)
    (herr : cfg.max_consecutive_errors ≤ s.consecutive_errors + 1) :
    runLoop cfg s (.failure :: rest)
      = [.pollStart, .healthCritical .consecutiveErrors]
          ++ runLoop cfg ⟨s.consecutive_errors + 1, s.request_count + 1⟩ rest
    ∧ (s.request_count + 1 < cfg.max_requests_per_session →
        ∀ (b : Bool) (rest2 : List PollOutcome),
          runLoop cfg ⟨s.consecutive_errors + 1, s.request_count + 1⟩
              (.success b :: rest2)
            = [.pollStart, .pollResult]
                ++ (if b then [.seatDetected] else [])
                ++ runLoop cfg ⟨0, s.request_count + 1 + 1⟩ rest2) := by
  constructor
  · show (if cfg.max_requests_per_session ≤ s.request_count then
        [MonitorEvent.healthCritical .sessionLimit]
      else (pollOnce cfg s .failure).2
        ++ runLoop cfg (pollOnce cfg s .failure).1 rest) = _
    rw [if_neg (Nat.not_le.mpr hreq)]
    show ([MonitorEvent.pollStart] ++
        (if cfg.max_consecutive_errors ≤ s.consecutive_errors + 1
          then [MonitorEvent.healthCritical .consecutiveErrors] else []))
        ++ _ = _
    rw [if_pos herr]
    rfl
  · intro h2 b rest2
    show (if cfg.max_requests_per_session ≤ s.request_count + 1 then
        [MonitorEvent.healthCritical .sessionLimit]
      else (pollOnce cfg ⟨s.consecutive_errors + 1, s.request_count + 1⟩
          (.success b)).2
        ++ runLoop cfg (pollOnce cfg ⟨s.consecutive_errors + 1, s.request_count + 1⟩
            (.success b)).1 rest2) = _
    rw [if_neg (Nat.not_le.mpr h2)]
    show ([MonitorEvent.pollStart, MonitorEvent.pollResult]
        ++ (if b then [MonitorEvent.seatDetected] else []))
        ++ runLoop cfg ⟨0, s.request_count + 1 + 1⟩ rest2 = _
    rw [List.append_assoc]

/-- Witness for the amended C2: a failing poll at the error threshold with
an empty remainder. -/
theorem monitor_c2_amended_witness :
    (0 : Nat) < 10 ∧ (1 : Nat) ≤ 0 + 1 ∧
      runLoop ⟨1, 10⟩ ⟨0, 0⟩ [.failure]
        = [.pollStart, .healthCritical .consecutiveErrors]
            ++ runLoop ⟨1, 10⟩ ⟨0 + 1, 0 + 1⟩ [] :=
  ⟨by decide, by decide,
    (monitor_c2_amended ⟨1, 10⟩ ⟨0, 0⟩ [] (by decide) (by decide)).1⟩

/-! ## Theorems for C3, C4, C10 (notifier agent) -/

/-- Counterexample to C3: every enabled channel fails, yet the agent still
updates `last_notification_ts`, increments the notifications-sent counter
and emits `NOTIFY_COMPLETE`, because `NotifierSkill.send` swallows channel
failures (`asyncio.gather(..., return_exceptions=True)`) and returns
normally. -/
theorem notifier_c3_counterexample :
    (∀ m ∈ ["desktop", "sound"],
      (fun _ : String => (Except.error "channel failed" : Except String Unit))
          m = .error "channel failed")
    ∧ handleNotification 60 ⟨0, 0⟩ 100 demoResult
        (NotifierSkill.send ["desktop", "sound"] demoResult
          (fun _ => .error "channel failed"))
      = ⟨⟨100, 1⟩, true, [.notifyComplete 1 1]⟩ := by
  exact ⟨fun m _ => rfl, by decide⟩

/-- C3 as amended: for a detection that is not dropped (cooldown expired,
at least one available train), the agent updates `last_notification_ts`,
increments the counter and emits `NOTIFY_COMPLETE` whenever
`NotifierSkill.send` returns — which it always does, whatever the channel
outcomes, since every channel failure is collected by
`gather(return_exceptions=True)` and discarded; only an exception escaping
`send` itself (not a channel failure) suppresses all three effects. -/
theorem notifier_c3_amended (cooldown : ℚ) (s : NotifierSt) (now : ℚ)
    (r : CheckResult) (methods : List String)
    (channelResult : String → Except String Unit)
    (hdrop : ¬(0 < s.last_notification_time
        ∧ now - s.last_notification_time < cooldown))
    (havail : r.available_trains ≠ []) :
    NotifierSkill.send methods r channelResult = .ok ()
    ∧ handleNotification cooldown s now r
        (NotifierSkill.send methods r channelResult)
      = ⟨⟨now, s.notifications_sent + 1⟩, true,
          [.notifyComplete r.available_trains.length (s.notifications_sent + 1)]⟩
    ∧ (∀ e : String,
        handleNotification cooldown s now r (.error e) = ⟨s, true, []⟩) := by
  have hsend : NotifierSkill.send methods r channelResult = .ok () := by
    unfold NotifierSkill.send
    split <;> rfl
  have hne : ¬(r.available_trains.isEmpty = true) := by
    simp [List.isEmpty_iff, havail]
  refine ⟨hsend, ?_, ?_⟩
  · rw [hsend]
    unfold handleNotification
    rw [if_neg hdrop, if_neg hne]
  · intro e
    unfold handleNotification
    rw [if_neg hdrop, if_neg hne]

/-- Witness for the amended C3: a fresh agent, a detection with one
available train, and both channels failing. -/
theorem notifier_c3_amended_witness :
    ¬(0 < (⟨0, 0⟩ : NotifierSt).last_notification_time
        ∧ (100 : ℚ) - (⟨0, 0⟩ : NotifierSt).last_notification_time < 60)
    ∧ demoResult.available_trains ≠ []
    ∧ NotifierSkill.send ["desktop", "sound"] demoResult
        (fun _ => .error "fail") = .ok () :=
  ⟨by decide, by decide,
    (notifier_c3_amended 60 ⟨0, 0⟩ 100 demoResult ["desktop", "sound"]
      (fun _ => .error "fail") (by decide) (by decide)).1⟩

/-- C4: notifier cooldown.  Starting from a fresh session state
(`last_notification_ts = 0`), the first detection is never dropped by the
cooldown and, once sent, stamps its time `t1`; a second detection processed
Δ later is dropped silently when `Δ < cooldown` (whatever it contains),
and is sent when `Δ ≥ cooldown` (given it has available trains and the
dispatch returns). -/
theorem notifier_c4 (cooldown : ℚ) (n0 : Nat) (t1 d : ℚ)
    (r1 r2 : CheckResult) (sr2 : Except String Unit)
    (ht1 : 0 < t1)
    (havail1 : r1.available_trains ≠ []) :
    handleNotification cooldown ⟨0, n0⟩ t1 r1 (.ok ())
      = ⟨⟨t1, n0 + 1⟩, true, [.notifyComplete r1.available_trains.length (n0 + 1)]⟩
    ∧ (d < cooldown →
        handleNotification cooldown ⟨t1, n0 + 1⟩ (t1 + d) r2 sr2
          = ⟨⟨t1, n0 + 1⟩, false, []⟩)
    ∧ (cooldown ≤ d → r2.available_trains ≠ [] →
        handleNotification cooldown ⟨t1, n0 + 1⟩ (t1 + d) r2 (.ok ())
          = ⟨⟨t1 + d, n0 + 1 + 1⟩, true,
              [.notifyComplete r2.available_trains.length (n0 + 1 + 1)]⟩) := by
  have hne1 : ¬(r1.available_trains.isEmpty = true) := by
    simp [List.isEmpty_iff, havail1]
  refine ⟨?_, ?_, ?_⟩
  · unfold handleNotification
    rw [if_neg (by simp), if_neg hne1]
  · intro hlt
    unfold handleNotification
    rw [if_pos ⟨by simpa using ht1, by dsimp only; linarith⟩]
  · intro hge havail2
    have hne2 : ¬(r2.available_trains.isEmpty = true) := by
      simp [List.isEmpty_iff, havail2]
    unfold handleNotification
    rw [if_neg (fun h => absurd h.2 (by dsimp only; linarith)), if_neg hne2]

/-- Witness for C4: cooldown 60s, first detection at t=100, second 70s
later (cooldown expired). -/
theorem notifier_c4_witness :
    (0 : ℚ) < 100 ∧ demoResult.available_trains ≠ []
    ∧ handleNotification 60 ⟨0, 0⟩ 100 demoResult (.ok ())
        = ⟨⟨100, 0 + 1⟩, true,
            [.notifyComplete demoResult.available_trains.length (0 + 1)]⟩ :=
  ⟨by decide, by decide,
    (notifier_c4 60 0 100 70 demoResult demoResult (.ok ()) (by decide)
      (by decide)).1⟩

/-- C10: a dequeued detection that is dropped — by the cooldown test or
because no train in it has seats — leaves the NotifierAgent's state
unchanged, attempts no channel send, and puts no event on the bus. -/
theorem notifier_c10_frame (cooldown : ℚ) (s : NotifierSt) (now : ℚ)
    (r : CheckResult) (sr : Except String Unit)
    (h : (0 < s.last_notification_time
          ∧ now - s.last_notification_time < cooldown)
        ∨ r.available_trains = []) :
    handleNotification cooldown s now r sr = ⟨s, false, []⟩ := by
  unfold handleNotification
  by_cases hc : 0 < s.last_notification_time
      ∧ now - s.last_notification_time < cooldown
  · rw [if_pos hc]
  · rw [if_neg hc]
    rcases h with h | h
    · exact absurd h hc
    · rw [if_pos (by simp [h])]

/-- Witness for C10: a detection arriving 10s after the last notification
with a 60s cooldown is dropped with no state change and no events. -/
theorem notifier_c10_frame_witness :
    ((0 : ℚ) < 50 ∧ (60 : ℚ) - 50 < 60) ∧
      handleNotification 60 ⟨50, 3⟩ 60 demoResult (.ok ()) = ⟨⟨50, 3⟩, false, []⟩ :=
  ⟨⟨by norm_num, by norm_num⟩,
    notifier_c10_frame 60 ⟨50, 3⟩ 60 demoResult (.ok ())
      (Or.inl ⟨by norm_num, by norm_num⟩)⟩

/-! ## Theorems for C8 (query validation) -/

/-- Counterexample to C8: on an input whose departure station is unknown
(and which violates none of the five conditions the claim enumerates),
`validate_query` still raises — so "raises exactly when [the five
conditions]" is false as stated over every input dictionary.  (Inputs with
missing required fields raise as well.) -/
theorem validation_c8_counterexample :
    validate_query 20300 badStationInput = .error "지원하지 않는 역입니다"
    ∧ ¬ claimedRejectC8 20300 badStationInput := by
  refine ⟨rfl, ?_⟩
  rintro (⟨c, h1, h2⟩ | ⟨d, h1, h2⟩ | ⟨d, h1, h2⟩ | ⟨a, b, h1, h2, h3⟩
    | ⟨p, h1, h2⟩)
  · have e1 : badStationInput.departure.map normalizeName = some "없는역" := by
      decide
    have e2 : badStationInput.arrival.map normalizeName = some "부산" := by
      decide
    rw [e1] at h1
    rw [e2] at h2
    cases h1
    exact absurd h2 (by decide)
  · simp only [badStationInput, Option.some.injEq] at h1
    omega
  · simp only [badStationInput, Option.some.injEq] at h1
    omega
  · simp only [badStationInput, Option.some.injEq] at h1 h2
    subst h1; subst h2
    exact absurd h3 (by decide)
  · simp only [badStationInput, Option.some.injEq] at h1
    omega

lemma pytime_not_le_iff (a b : PyTime) : ¬ PyTime.le b a ↔ PyTime.lt a b := by
  unfold PyTime.le PyTime.lt
  omega

/-- C8 as amended: `validate_query` raises also when a required field is
missing or empty, or a station is not in the supported table.  Among inputs
whose required fields are all present (stations non-empty, both validating)
it raises exactly when the five conditions of the claim hold — same station
after normalisation, past date, more than 90 days ahead, window end ≤
window start, or passenger count outside 1..9 — and otherwise returns the
`TrainQuery` built from the normalised values, which satisfies all the
claimed invariants. -/
theorem validation_c8_amended (today : Int) (input : QueryInput)
    (sd sa dep arr : String) (d : Int) (a b : PyTime) (p : Int)
    (hsd : input.departure = some sd) (hsdne : sd.isEmpty = false)
    (hsa : input.arrival = some sa) (hsane : sa.isEmpty = false)
    (hd : input.date = some d)
    (ha : input.time_start = some a) (hb : input.time_end = some b)
    (hp : input.passengers = some p)
    (hvd : validate_station sd = .ok dep)
    (hva : validate_station sa = .ok arr) :
    ((∃ e, validate_query today input = .error e)
      ↔ (dep = arr ∨ d < today ∨ today + MAX_FUTURE_DAYS < d
          ∨ PyTime.le b a ∨ p < 1 ∨ 9 < p))
    ∧ (∀ q, validate_query today input = .ok q →
        q = ⟨dep, arr, d, a, b, input.train_type.getD "KTX",
              input.seat_type.getD "일반실", p⟩
        ∧ q.departure_station ≠ q.arrival_station
        ∧ today ≤ q.departure_date
        ∧ q.departure_date ≤ today + MAX_FUTURE_DAYS
        ∧ PyTime.lt q.preferred_time_start q.preferred_time_end
        ∧ 1 ≤ q.passenger_count ∧ q.passenger_count ≤ 9) := by
  have hcore : validate_query today input =
      (if dep = arr then .error "출발역과 도착역이 같습니다"
       else if d < today then .error "과거 날짜는 선택할 수 없습니다"
       else if today + MAX_FUTURE_DAYS < d then
         .error "90일 이내의 날짜만 선택할 수 있습니다"
       else if PyTime.le b a then .error "종료 시간이 시작 시간보다 커야 합니다"
       else if p < 1 ∨ 9 < p then .error "승객 수는 1~9명이어야 합니다"
       else .ok ⟨dep, arr, d, a, b, input.train_type.getD "KTX",
         input.seat_type.getD "일반실", p⟩) := by
    unfold validate_query
    rw [hsd, hsa, hd, ha, hb, hp]
    simp only [pyTruthyStr, hsdne, hsane, Bool.not_false, not_true,
      Option.isNone_some, Option.getD_some, hvd, hva, if_false,
      Bool.false_eq_true, ite_false]
  constructor
  · rw [hcore]
    split_ifs with h1 h2 h3 h4 h5
    · exact ⟨fun _ => Or.inl h1, fun _ => ⟨_, rfl⟩⟩
    · exact ⟨fun _ => Or.inr (Or.inl h2), fun _ => ⟨_, rfl⟩⟩
    · exact ⟨fun _ => Or.inr (Or.inr (Or.inl h3)), fun _ => ⟨_, rfl⟩⟩
    · exact ⟨fun _ => Or.inr (Or.inr (Or.inr (Or.inl h4))), fun _ => ⟨_, rfl⟩⟩
    · exact ⟨fun _ => Or.inr (Or.inr (Or.inr (Or.inr h5))), fun _ => ⟨_, rfl⟩⟩
    · constructor
      · rintro ⟨e, he⟩
        exact absurd he (by simp)
      · rintro (h | h | h | h | h | h)
        · exact absurd h h1
        · exact absurd h h2
        · exact absurd h h3
        · exact absurd h h4
        · exact absurd (Or.inl h) h5
        · exact absurd (Or.inr h) h5
  · intro q hq
    rw [hcore] at hq
    split_ifs at hq with h1 h2 h3 h4 h5
    injection hq with hq2
    subst hq2
    exact ⟨rfl, h1, (by omega : today ≤ d),
      (by omega : d ≤ today + MAX_FUTURE_DAYS),
      (pytime_not_le_iff a b).mp h4, (by omega : 1 ≤ p), (by omega : p ≤ 9)⟩

/-! ## Theorems for C9 (pagination of SeatCheckerSkill.check) -/

/-- Characterisation of the pagination loop: with no `FAIL` page among the
fuel-many reachable ones, the loop takes between 1 and `fuel` pages,
continues exactly while `h_next_pg_flg = "Y"`, stops at the first page
without it, and returns the in-order concatenation of the per-page train
lists together with the summed byte sizes. -/
lemma checkPages_spec (srv : Nat → ApiPage) :
    ∀ (fuel i : Nat), (∀ j ∈ List.range' i fuel, (srv j).strResult ≠ "FAIL") →
      pagesTaken srv i fuel ≤ fuel
      ∧ (0 < fuel → 1 ≤ pagesTaken srv i fuel)
      ∧ (∀ j ∈ List.range' i (pagesTaken srv i fuel - 1),
          (srv j).next_pg_flg = "Y")
      ∧ (pagesTaken srv i fuel < fuel →
          (srv (i + (pagesTaken srv i fuel - 1))).next_pg_flg ≠ "Y")
      ∧ checkPages srv i fuel
          = .ok (((List.range' i (pagesTaken srv i fuel)).map
                    (fun j => (srv j).trains)).flatten,
                 ((List.range' i (pagesTaken srv i fuel)).map
                    (fun j => (srv j).size)).sum) := by
  intro fuel
  induction fuel with
  | zero =>
    intro i hF
    refine ⟨Nat.le_refl _, fun h => absurd h (by omega), ?_, ?_, rfl⟩
    · intro j hj
      exact absurd hj (by simp [pagesTaken])
    · intro h
      exact absurd h (by simp [pagesTaken])
  | succ fuel ih =>
    intro i hF
    have hFi : (srv i).strResult ≠ "FAIL" := by
      apply hF
      rw [List.mem_range'_1]
      omega
    by_cases hflag : (srv i).next_pg_flg ≠ "Y"
    · have hpt : pagesTaken srv i (fuel + 1) = 1 := by
        simp only [pagesTaken]
        rw [if_neg hFi, if_pos hflag]
      have hcp : checkPages srv i (fuel + 1)
          = .ok ((srv i).trains, (srv i).size) := by
        simp only [checkPages]
        rw [if_neg hFi, if_pos hflag]
      refine ⟨by omega, fun _ => by omega, ?_, ?_, ?_⟩
      · intro j hj
        rw [hpt] at hj
        exact absurd hj (by simp)
      · intro _
        rw [hpt]
        simpa using hflag
      · rw [hpt, hcp]
        simp
    · push_neg at hflag
      have hF2 : ∀ j ∈ List.range' (i + 1) fuel, (srv j).strResult ≠ "FAIL" := by
        intro j hj
        apply hF
        rw [List.mem_range'_1] at hj ⊢
        omega
      obtain ⟨ih1, ih2, ih3, ih4, ih5⟩ := ih (i + 1) hF2
      have hpt : pagesTaken srv i (fuel + 1)
          = 1 + pagesTaken srv (i + 1) fuel := by
        simp only [pagesTaken]
        rw [if_neg hFi, if_neg (not_not_intro hflag)]
      have hcp : checkPages srv i (fuel + 1)
          = .ok ((srv i).trains
                ++ ((List.range' (i + 1) (pagesTaken srv (i + 1) fuel)).map
                      (fun j => (srv j).trains)).flatten,
              (srv i).size
                + ((List.range' (i + 1) (pagesTaken srv (i + 1) fuel)).map
                      (fun j => (srv j).size)).sum) := by
        simp only [checkPages]
        rw [if_neg hFi, if_neg (not_not_intro hflag), ih5]
      refine ⟨by omega, fun _ => by omega, ?_, ?_, ?_⟩
      · intro j hj
        rw [hpt] at hj
        rw [show 1 + pagesTaken srv (i + 1) fuel - 1
            = pagesTaken srv (i + 1) fuel by omega] at hj
        rw [List.mem_range'_1] at hj
        rcases Nat.eq_or_lt_of_le hj.1 with heq | hij
        · rw [← heq]
          exact hflag
        · apply ih3
          rw [List.mem_range'_1]
          omega
      · intro h
        rw [hpt] at h ⊢
        have hn1 : 1 ≤ pagesTaken srv (i + 1) fuel := ih2 (by omega)
        rw [show i + (1 + pagesTaken srv (i + 1) fuel - 1)
            = i + 1 + (pagesTaken srv (i + 1) fuel - 1) by omega]
        exact ih4 (by omega)
      · rw [hpt, hcp]
        rw [show 1 + pagesTaken srv (i + 1) fuel
            = pagesTaken srv (i + 1) fuel + 1 by omega]
        rw [show List.range' i (pagesTaken srv (i + 1) fuel + 1)
            = i :: List.range' (i + 1) (pagesTaken srv (i + 1) fuel) from rfl]
        simp

/-- C9: in a poll with no `FAIL` response among the reachable pages,
`check` issues between 1 and 5 page requests, continues exactly while the
response carries `h_next_pg_flg = "Y"` (so it stops at the first response
lacking it — the only way all 5 pages are read is that the first four all
carry the flag), and returns one `CheckResult` whose `trains` is the
in-order concatenation of the per-page train lists, whose
`raw_response_size` is the sum of the per-page byte sizes, and whose
`seats_available` is true exactly when some returned train has seats. -/
theorem seat_checker_c9 (srv : Nat → ApiPage) (ts : ℚ)
    (hF : ∀ j ∈ List.range' 0 MAX_PAGES, (srv j).strResult ≠ "FAIL") :
    pagesTaken srv 0 MAX_PAGES ≤ 5
    ∧ 1 ≤ pagesTaken srv 0 MAX_PAGES
    ∧ (∀ j ∈ List.range' 0 (pagesTaken srv 0 MAX_PAGES - 1),
        (srv j).next_pg_flg = "Y")
    ∧ (pagesTaken srv 0 MAX_PAGES < 5 →
        (srv (pagesTaken srv 0 MAX_PAGES - 1)).next_pg_flg ≠ "Y")
    ∧ SeatCheckerSkill.check srv ts
        = .ok ⟨ts,
            ((List.range' 0 (pagesTaken srv 0 MAX_PAGES)).map
              (fun j => (srv j).trains)).flatten,
            (((List.range' 0 (pagesTaken srv 0 MAX_PAGES)).map
              (fun j => (srv j).trains)).flatten).any (fun t => t.has_seats),
            ((List.range' 0 (pagesTaken srv 0 MAX_PAGES)).map
              (fun j => (srv j).size)).sum⟩
    ∧ (∀ r, SeatCheckerSkill.check srv ts = .ok r →
        (r.seats_available = true ↔ ∃ t ∈ r.trains, t.has_seats = true)) := by
  obtain ⟨h1, h2, h3, h4, h5⟩ := checkPages_spec srv MAX_PAGES 0 hF
  have hchk : SeatCheckerSkill.check srv ts
      = .ok ⟨ts,
          ((List.range' 0 (pagesTaken srv 0 MAX_PAGES)).map
            (fun j => (srv j).trains)).flatten,
          (((List.range' 0 (pagesTaken srv 0 MAX_PAGES)).map
            (fun j => (srv j).trains)).flatten).any (fun t => t.has_seats),
          ((List.range' 0 (pagesTaken srv 0 MAX_PAGES)).map
            (fun j => (srv j).size)).sum⟩ := by
    unfold SeatCheckerSkill.check
    rw [h5]
  refine ⟨h1, h2 (by norm_num [MAX_PAGES]), h3, ?_, hchk, ?_⟩
  · intro h
    have h4' := h4 h
    simpa using h4'
  · intro r hr
    rw [hchk] at hr
    injection hr with hr2
    subst hr2
    exact List.any_eq_true

/-- Witness for C9: the seeded two-page server (`h_next_pg_flg = "Y"` on
page 0 only). -/
theorem seat_checker_c9_witness :
    (∀ j ∈ List.range' 0 MAX_PAGES, (demoSrv j).strResult ≠ "FAIL")
    ∧ pagesTaken demoSrv 0 MAX_PAGES ≤ 5 :=
  ⟨by decide, (seat_checker_c9 demoSrv 0 (by decide)).1⟩

/-- Witness for the amended C8: the alias input "서울역" → "부산" on a valid
date with 2 passengers. -/
theorem validation_c8_amended_witness :
    demoQueryInput.departure = some "서울역" ∧ "서울역".isEmpty = false
    ∧ demoQueryInput.arrival = some "부산" ∧ "부산".isEmpty = false
    ∧ demoQueryInput.date = some 20305
    ∧ demoQueryInput.time_start = some ⟨8, 0⟩
    ∧ demoQueryInput.time_end = some ⟨12, 0⟩
    ∧ demoQueryInput.passengers = some 2
    ∧ validate_station "서울역" = .ok "서울"
    ∧ validate_station "부산" = .ok "부산"
    ∧ ((∃ e, validate_query 20300 demoQueryInput = .error e)
        ↔ (("서울" : String) = "부산" ∨ (20305 : Int) < 20300
            ∨ 20300 + MAX_FUTURE_DAYS < 20305
            ∨ PyTime.le ⟨12, 0⟩ ⟨8, 0⟩ ∨ (2 : Int) < 1 ∨ (9 : Int) < 2)) :=
  ⟨rfl, rfl, rfl, rfl, rfl, rfl, rfl, rfl, rfl, rfl,
    (validation_c8_amended 20300 demoQueryInput "서울역" "부산" "서울" "부산"
      20305 ⟨8, 0⟩ ⟨12, 0⟩ 2 rfl rfl rfl rfl rfl rfl rfl rfl rfl rfl).1⟩

end Korail
